import Mathlib

/-!
Verification of the T5 encoder-decoder model wiring
(megatron/core/models/T5/t5_model.py).

The file shallowly embeds the architecture wiring of `T5Model`:

* tensors that flow through `forward` are represented by a symbolic term
  type `Tens` whose constructors record exactly which framework operation
  produced the value and from which arguments (Python `None` is the
  constructor `Tens.noneT`, matching `is None` tests in the source);
* the model state (`pre_process`, `post_process`, `add_encoder`,
  `add_decoder`, `share_embeddings_and_output_weights`,
  `position_embedding_type`, `encoder_hidden_state`, and the input tensors
  held by the encoder / decoder `TransformerBlock`s) is the structure
  `T5Model`;
* `T5Model.forward` mirrors the Python control flow line by line and in
  addition returns an event trace (in execution order) and the exact
  argument records passed to the encoder block, the decoder block and the
  LM head, so that ordering and dataflow claims become decidable facts;
* `T5Model.set_input_tensor` returns `Except String T5Model`: Python
  `assert` failures and `raise Exception` both become `Except.error`, and
  an error carries no updated state (in the source no mutation precedes
  any of the raises);
* `t5_position_ids` is additionally modelled concretely on rank-2 integer
  tensors (`Tensor2`), and the relative-position-bias permute / scatter /
  permute dance concretely on rank-4 integer tensors (`Tensor4`).
-/

/-- The three values of the `position_embedding_type` literal in the source:
`'learned_absolute' | 'rope' | 'relative'`. -/
inductive PosEmbKind
  | learned_absolute
  | rope
  | relative
deriving DecidableEq, Repr

/-- Symbolic tensors: each constructor records one framework operation of the
source file applied to its arguments.  Python `None` is `noneT`. -/
inductive Tens
  /-- an arbitrary externally supplied tensor -/
  | var (n : Nat)
  /-- Python `None` -/
  | noneT
  /-- `t5_position_ids(token_ids)` -/
  | t5PositionIdsT (token_ids : Tens)
  /-- `self.embedding(input_ids=…, position_ids=…)` -/
  | embeddingT (input_ids position_ids : Tens)
  /-- `self.rotary_pos_emb(rotary_seq_len)`; the flag says whether the
  sequence length was derived from the decoder (`true`) or the encoder
  (`false`) side, and the tensor is the block input the length came from -/
  | rotaryT (decoder_side : Bool) (block_input : Tens)
  /-- `self.encoder_relative_pos_emb(q, kv)` (bidirectional = true) or
  `self.decoder_relative_pos_emb(q, kv)` (bidirectional = false); the
  tensor is the block input the sequence length came from -/
  | relBiasT (bidirectional : Bool) (block_input : Tens)
  /-- `torch.permute(t, (0, 2, 3, 1))` -/
  | permute0231T (t : Tens)
  /-- `scatter_to_tensor_model_parallel_region(t, self.tp_group)` -/
  | scatterTPT (t : Tens)
  /-- `torch.permute(t, (0, 3, 1, 2))` -/
  | permute0312T (t : Tens)
  /-- `self.encoder(hidden_states, attention_mask, …, rotary_pos_emb,
  attention_bias)` -/
  | encoderT (hidden_states attention_mask rotary_pos_emb attention_bias : Tens)
  /-- `self.decoder(hidden_states, attention_mask, context, context_mask, …,
  rotary_pos_emb, attention_bias)` -/
  | decoderT (hidden_states attention_mask context context_mask
      rotary_pos_emb attention_bias : Tens)
  /-- `self.lm_head(decoder_hidden_states, word_embeddings_weight)` -/
  | lmHeadT (hidden_states word_embeddings_weight : Tens)
  /-- `lm_logits.transpose(0, 1).contiguous()` -/
  | transposeContigT (t : Tens)
  /-- `self.compute_language_model_loss(lm_labels, lm_logits)` -/
  | lmLossT (lm_labels lm_logits : Tens)
  /-- `self.embedding.word_embeddings.weight` -/
  | wordEmbWeightT
  /-- `self.lm_head.output_layer.weight` -/
  | outputLayerWeightT
deriving DecidableEq, Repr

/-- The state of a `T5Model` instance: the constructor flags and the mutable
fields touched by `forward` / `set_input_tensor`.  The fields
`encoder_block_input` and `decoder_block_input` stand for the input tensors
held by the encoder / decoder `TransformerBlock`s (written by their
`set_input_tensor`). -/
structure T5Model where
  pre_process : Bool
  post_process : Bool
  add_encoder : Bool
  add_decoder : Bool
  share_embeddings_and_output_weights : Bool
  position_embedding_type : PosEmbKind
  encoder_hidden_state : Tens
  encoder_block_input : Tens
  decoder_block_input : Tens
deriving DecidableEq, Repr

/-- The tensor arguments of a `T5Model.forward` call. -/
structure ForwardArgs where
  encoder_input_ids : Tens
  decoder_input_ids : Tens
  encoder_attn_mask : Tens
  decoder_attn_mask : Tens
  encoder_decoder_attn_mask : Tens
  lm_labels : Tens
  encoder_hidden_states : Tens
  output_encoder_hidden_only : Bool
deriving DecidableEq, Repr

/-- Execution-order events emitted by the model of `forward`. -/
inductive Event
  | encEmbedding
  | encRotaryPosEmb
  | encRelativePosBias
  | encBlock
  | decEmbedding
  | decRotaryPosEmb
  | decRelativePosBias
  | decBlock
  | lmOutputHead
  | lmLossCompute
deriving DecidableEq, Repr

/-- The keyword arguments of the `self.encoder(...)` call in `forward`. -/
structure EncCall where
  hidden_states : Tens
  attention_mask : Tens
  rotary_pos_emb : Tens
  attention_bias : Tens
deriving DecidableEq, Repr

/-- The keyword arguments of the `self.decoder(...)` call in `forward`. -/
structure DecCall where
  hidden_states : Tens
  attention_mask : Tens
  context : Tens
  context_mask : Tens
  rotary_pos_emb : Tens
  attention_bias : Tens
deriving DecidableEq, Repr

/-- The arguments of the `self.lm_head(...)` call in `forward`. -/
structure HeadCall where
  hidden_states : Tens
  word_embeddings_weight : Tens
deriving DecidableEq, Repr

/-- What one `forward` call did: the events in execution order, the argument
records of the block / head invocations (`none` when not invoked), and the
returned value. -/
structure ForwardOut where
  trace : List Event
  encCall : Option EncCall
  decCall : Option DecCall
  headCall : Option HeadCall
  result : Tens
deriving DecidableEq, Repr

/-- `T5Model.shared_embedding_or_output_weight` (t5_model.py lines 467-474). -/
def T5Model.shared_embedding_or_output_weight (self : T5Model) : Tens :=
  if self.pre_process then Tens.wordEmbWeightT
  else if self.post_process then Tens.outputLayerWeightT
  else Tens.noneT

/-- `T5Model.forward` (t5_model.py lines 275-435), instrumented with the
event trace and call records.  The control flow mirrors the source:
the encoder section runs only when `encoder_hidden_states is None`;
the early return fires on `not self.add_decoder or
output_encoder_hidden_only`; the decoder and post-processing sections
follow. -/
def T5Model.forward (self : T5Model) (a : ForwardArgs) : ForwardOut :=
  -- ## Encoder forward (`if encoder_hidden_states is None:`)
  let encSection : List Event × Option EncCall × Tens :=
    if a.encoder_hidden_states = Tens.noneT then
      let encoder_position_ids := Tens.t5PositionIdsT a.encoder_input_ids
      let encoder_input :=
        if self.pre_process then
          Tens.embeddingT a.encoder_input_ids encoder_position_ids
        else Tens.noneT
      let rotary_pos_emb :=
        if self.position_embedding_type = PosEmbKind.rope then
          Tens.rotaryT false encoder_input
        else Tens.noneT
      let encoder_attention_bias_parallel :=
        if self.position_embedding_type = PosEmbKind.relative then
          let attention_bias := Tens.relBiasT true encoder_input
          let attention_bias := Tens.permute0231T attention_bias
          let attention_bias_parallel := Tens.scatterTPT attention_bias
          Tens.permute0312T attention_bias_parallel
        else Tens.noneT
      let tr :=
        (if self.pre_process then [Event.encEmbedding] else [])
        ++ (if self.position_embedding_type = PosEmbKind.rope then
              [Event.encRotaryPosEmb] else [])
        ++ (if self.position_embedding_type = PosEmbKind.relative then
              [Event.encRelativePosBias] else [])
        ++ (if self.add_encoder then [Event.encBlock] else [])
      if self.add_encoder then
        (tr,
         some { hidden_states := encoder_input,
                attention_mask := a.encoder_attn_mask,
                rotary_pos_emb := rotary_pos_emb,
                attention_bias := encoder_attention_bias_parallel },
         Tens.encoderT encoder_input a.encoder_attn_mask rotary_pos_emb
           encoder_attention_bias_parallel)
      else
        (tr, none, self.encoder_hidden_state)
    else
      ([], none, a.encoder_hidden_states)
  let trace0 := encSection.1
  let encCall := encSection.2.1
  let encoder_hidden_states := encSection.2.2
  if !self.add_decoder || a.output_encoder_hidden_only then
    { trace := trace0, encCall := encCall, decCall := none, headCall := none,
      result := encoder_hidden_states }
  else
    -- ## Decoder forward
    let decoder_position_ids := Tens.t5PositionIdsT a.decoder_input_ids
    let decoder_input :=
      if self.pre_process then
        Tens.embeddingT a.decoder_input_ids decoder_position_ids
      else Tens.noneT
    let rotary_pos_emb :=
      if self.position_embedding_type = PosEmbKind.rope then
        Tens.rotaryT true decoder_input
      else Tens.noneT
    let decoder_attention_bias_parallel :=
      if self.position_embedding_type = PosEmbKind.relative then
        let attention_bias := Tens.relBiasT false decoder_input
        let attention_bias := Tens.permute0231T attention_bias
        let attention_bias_parallel := Tens.scatterTPT attention_bias
        Tens.permute0312T attention_bias_parallel
      else Tens.noneT
    let decCall : DecCall :=
      { hidden_states := decoder_input,
        attention_mask := a.decoder_attn_mask,
        context := encoder_hidden_states,
        context_mask := a.encoder_decoder_attn_mask,
        rotary_pos_emb := rotary_pos_emb,
        attention_bias := decoder_attention_bias_parallel }
    let decoder_hidden_states :=
      Tens.decoderT decoder_input a.decoder_attn_mask encoder_hidden_states
        a.encoder_decoder_attn_mask rotary_pos_emb
        decoder_attention_bias_parallel
    let trace1 := trace0
      ++ (if self.pre_process then [Event.decEmbedding] else [])
      ++ (if self.position_embedding_type = PosEmbKind.rope then
            [Event.decRotaryPosEmb] else [])
      ++ (if self.position_embedding_type = PosEmbKind.relative then
            [Event.decRelativePosBias] else [])
      ++ [Event.decBlock]
    if self.post_process then
      let output_weight :=
        if self.share_embeddings_and_output_weights then
          self.shared_embedding_or_output_weight
        else Tens.noneT
      let lm_logits := Tens.lmHeadT decoder_hidden_states output_weight
      let headCall : HeadCall :=
        { hidden_states := decoder_hidden_states,
          word_embeddings_weight := output_weight }
      if a.lm_labels = Tens.noneT then
        { trace := trace1 ++ [Event.lmOutputHead], encCall := encCall,
          decCall := some decCall, headCall := some headCall,
          result := Tens.transposeContigT lm_logits }
      else
        { trace := trace1 ++ [Event.lmOutputHead, Event.lmLossCompute],
          encCall := encCall, decCall := some decCall,
          headCall := some headCall,
          result := Tens.lmLossT a.lm_labels lm_logits }
    else
      { trace := trace1, encCall := encCall, decCall := some decCall,
        headCall := none, result := decoder_hidden_states }

/-- The argument of `set_input_tensor`: either a Python list of tensors, or a
single non-list value (a tensor or `None`). -/
inductive STArg
  | tensor (t : Tens)
  | list (ts : List Tens)
deriving DecidableEq, Repr

/-- The wrapping step of `set_input_tensor`: a non-list argument becomes a
one-element list (`if not isinstance(input_tensor, list): input_tensor =
[input_tensor]`). -/
def normalizeInputTensor (arg : STArg) : List Tens :=
  match arg with
  | .tensor t => [t]
  | .list ts => ts

/-- `T5Model.set_input_tensor` (t5_model.py lines 437-465).  Assertion
failures and raised exceptions are `Except.error` with the source's message;
in the source no mutation precedes a raise, so an error leaves the state
unchanged, which the `Except` encoding makes structural. -/
def T5Model.set_input_tensor (self : T5Model) (arg : STArg) :
    Except String T5Model :=
  let input_tensor := normalizeInputTensor arg
  if self.add_encoder && self.add_decoder then
    match input_tensor with
    | [t] => .ok { self with encoder_block_input := t }
    | _ => .error
        "input_tensor should only be length 1 for stage with both encoder and decoder"
  else if self.add_encoder then
    match input_tensor with
    | [t] => .ok { self with encoder_block_input := t }
    | _ => .error
        "input_tensor should only be length 1 for stage with only encoder"
  else if self.add_decoder then
    match input_tensor with
    | [t0, t1] => .ok { self with decoder_block_input := t0,
                                  encoder_hidden_state := t1 }
    | [t0] => .ok { self with decoder_block_input := Tens.noneT,
                              encoder_hidden_state := t0 }
    | _ => .error "input_tensor must have either length 1 or 2"
  else
    .error "Stage must have at least either encoder or decoder"

/-! ### Concrete rank-2 tensors, for `t5_position_ids` -/

/-- A rank-2 integer tensor: a shape `[size0, size1]` and an entry function
(indices outside the shape are irrelevant to the claims). -/
structure Tensor2 where
  size0 : Nat
  size1 : Nat
  entry : Nat → Nat → Int

/-- `torch.arange(n)` as a list of integers. -/
def torch_arange (n : Nat) : List Int :=
  (List.range n).map Int.ofNat

/-- `v.unsqueeze(0)`: a length-`n` rank-1 tensor becomes a `[1, n]` rank-2
tensor. -/
def unsqueeze0 (v : List Int) : Tensor2 :=
  { size0 := 1, size1 := v.length, entry := fun _ j => v.getD j 0 }

/-- `t.expand_as(target)`: broadcast a size-1 dimension of `t` to the shape
of `target`. -/
def expand_as (t target : Tensor2) : Tensor2 :=
  { size0 := target.size0, size1 := target.size1,
    entry := fun i j =>
      t.entry (if t.size0 = 1 then 0 else i) (if t.size1 = 1 then 0 else j) }

/-- `t5_position_ids` (t5_model.py lines 524-535):
`arange(token_ids.size(1)).unsqueeze(0).expand_as(token_ids)`. -/
def t5_position_ids (token_ids : Tensor2) : Tensor2 :=
  let seq_length := token_ids.size1
  let position_ids := torch_arange seq_length
  let position_ids2 := expand_as (unsqueeze0 position_ids) token_ids
  position_ids2

/-! ### Concrete rank-4 tensors, for the relative-bias permute / scatter -/

/-- A rank-4 integer tensor: a shape `[d0, d1, d2, d3]` and an entry
function. -/
structure Tensor4 where
  d0 : Nat
  d1 : Nat
  d2 : Nat
  d3 : Nat
  entry : Nat → Nat → Nat → Nat → Int

/-- `torch.permute(t, (0, 2, 3, 1))`: output dimension `m` is input
dimension `(0, 2, 3, 1)[m]`, so `out[i, j, k, l] = t[i, l, j, k]`. -/
def permute_0231 (t : Tensor4) : Tensor4 :=
  { d0 := t.d0, d1 := t.d2, d2 := t.d3, d3 := t.d1,
    entry := fun i j k l => t.entry i l j k }

/-- `torch.permute(t, (0, 3, 1, 2))`: output dimension `m` is input
dimension `(0, 3, 1, 2)[m]`, so `out[i, j, k, l] = t[i, k, l, j]`. -/
def permute_0312 (t : Tensor4) : Tensor4 :=
  { d0 := t.d0, d1 := t.d3, d2 := t.d1, d3 := t.d2,
    entry := fun i j k l => t.entry i k l j }

/-- Modelled from the spec: `scatter_to_tensor_model_parallel_region` is
imported from `megatron.core.tensor_parallel.mappings`, which is not part of
the sources here.  Per the spec's description ("scattered along that last
dimension over the tensor-parallel group"), it splits the last dimension
into `tp_size` equal chunks and keeps the chunk of this rank. -/
def scatter_to_tensor_model_parallel_region (tp_size rank : Nat)
    (t : Tensor4) : Tensor4 :=
  { d0 := t.d0, d1 := t.d1, d2 := t.d2, d3 := t.d3 / tp_size,
    entry := fun i j k l => t.entry i j k (rank * (t.d3 / tp_size) + l) }

/-! ## Theorems -/

/-- Helper: reading `torch.arange n` at an in-range index `j` gives `j`. -/
theorem torch_arange_getD (n j : Nat) (hj : j < n) :
    (torch_arange n).getD j 0 = Int.ofNat j := by
  simp [torch_arange, List.getD, List.getElem?_map, List.getElem?_range, hj]

/-- C10: `t5_position_ids` keeps the `[batch, seq]` shape, fills every row
with `0, 1, …, seq-1`, and depends only on the shape of its argument. -/
theorem t5_position_ids_spec :
    (∀ t : Tensor2, (t5_position_ids t).size0 = t.size0
        ∧ (t5_position_ids t).size1 = t.size1)
    ∧ (∀ (t : Tensor2) (i j : Nat), j < t.size1 →
        (t5_position_ids t).entry i j = Int.ofNat j)
    ∧ (∀ t1 t2 : Tensor2, t1.size0 = t2.size0 → t1.size1 = t2.size1 →
        t5_position_ids t1 = t5_position_ids t2) := by
  refine ⟨fun t => ⟨rfl, rfl⟩, fun t i j hj => ?_, fun t1 t2 h0 h1 => ?_⟩
  · by_cases h1 : t.size1 = 1
    · have hj0 : j = 0 := by omega
      subst hj0
      simp [t5_position_ids, expand_as, unsqueeze0, torch_arange, h1]
    · have h := torch_arange_getD t.size1 j hj
      simp only [torch_arange, List.getD] at h
      simpa [t5_position_ids, expand_as, unsqueeze0, torch_arange, h1] using h
  · cases t1 with
    | mk s0 s1 e =>
      cases t2 with
      | mk s0' s1' e' =>
        simp only at h0 h1
        subst h0
        subst h1
        rfl

/-- C10 witness: a concrete `[2, 3]` token tensor. -/
theorem t5_position_ids_spec_witness :
    (t5_position_ids ⟨2, 3, fun _ _ => 7⟩).entry 1 2 = Int.ofNat 2 :=
  t5_position_ids_spec.2.1 ⟨2, 3, fun _ _ => 7⟩ 1 2 (by decide)

/-- C2: with `add_encoder` true (any `add_decoder`), `set_input_tensor`
succeeds exactly when the argument, after wrapping a non-list into a
one-element list, has length 1, and then hands element 0 to the encoder
block's `set_input_tensor`. -/
theorem set_input_tensor_encoder_spec
    (ad pre post share : Bool) (pe : PosEmbKind) (ehs ebi dbi : Tens)
    (arg : STArg) :
    ((∃ st, (T5Model.mk pre post true ad share pe ehs ebi dbi).set_input_tensor
          arg = Except.ok st)
      ↔ (normalizeInputTensor arg).length = 1)
    ∧ (∀ t, normalizeInputTensor arg = [t] →
        (T5Model.mk pre post true ad share pe ehs ebi dbi).set_input_tensor arg
          = Except.ok (T5Model.mk pre post true ad share pe ehs t dbi)) := by
  unfold T5Model.set_input_tensor
  rcases hl : normalizeInputTensor arg with _ | ⟨t0, _ | ⟨t1, ts⟩⟩ <;>
    cases ad <;> simp_all

/-- C2 witness: a concrete non-list argument is wrapped and accepted. -/
theorem set_input_tensor_encoder_spec_witness :
    (T5Model.mk true true true true false PosEmbKind.rope Tens.noneT
        Tens.noneT Tens.noneT).set_input_tensor (STArg.tensor (Tens.var 5))
      = Except.ok (T5Model.mk true true true true false PosEmbKind.rope
          Tens.noneT (Tens.var 5) Tens.noneT) :=
  (set_input_tensor_encoder_spec true true true false PosEmbKind.rope
      Tens.noneT Tens.noneT Tens.noneT (STArg.tensor (Tens.var 5))).2
    (Tens.var 5) rfl

/-- C3: with `add_encoder` false and `add_decoder` true, `set_input_tensor`
accepts exactly lengths 1 and 2 (after wrapping): length 2 hands element 0
to the decoder block and stores element 1 as `encoder_hidden_state`;
length 1 hands `None` to the decoder block and stores element 0 as
`encoder_hidden_state`; every other length raises. -/
theorem set_input_tensor_decoder_spec
    (pre post share : Bool) (pe : PosEmbKind) (ehs ebi dbi : Tens)
    (arg : STArg) :
    ((∃ st, (T5Model.mk pre post false true share pe ehs ebi dbi).set_input_tensor
          arg = Except.ok st)
      ↔ ((normalizeInputTensor arg).length = 1
          ∨ (normalizeInputTensor arg).length = 2))
    ∧ (∀ t0 t1, normalizeInputTensor arg = [t0, t1] →
        (T5Model.mk pre post false true share pe ehs ebi dbi).set_input_tensor
            arg
          = Except.ok (T5Model.mk pre post false true share pe t1 ebi t0))
    ∧ (∀ t0, normalizeInputTensor arg = [t0] →
        (T5Model.mk pre post false true share pe ehs ebi dbi).set_input_tensor
            arg
          = Except.ok (T5Model.mk pre post false true share pe t0 ebi
              Tens.noneT))
    ∧ ((normalizeInputTensor arg).length ≠ 1 →
        (normalizeInputTensor arg).length ≠ 2 →
        (T5Model.mk pre post false true share pe ehs ebi dbi).set_input_tensor
            arg
          = Except.error "input_tensor must have either length 1 or 2") := by
  unfold T5Model.set_input_tensor
  rcases hl : normalizeInputTensor arg with _ | ⟨t0, _ | ⟨t1, _ | ⟨t2, ts⟩⟩⟩ <;>
    simp_all

/-- C3 witness: a length-2 list is accepted on a decoder-only stage. -/
theorem set_input_tensor_decoder_spec_witness :
    (T5Model.mk true true false true false PosEmbKind.rope Tens.noneT
        Tens.noneT Tens.noneT).set_input_tensor
        (STArg.list [Tens.var 1, Tens.var 2])
      = Except.ok (T5Model.mk true true false true false PosEmbKind.rope
          (Tens.var 2) Tens.noneT (Tens.var 1)) :=
  (set_input_tensor_decoder_spec true true false PosEmbKind.rope Tens.noneT
      Tens.noneT Tens.noneT (STArg.list [Tens.var 1, Tens.var 2])).2.1
    (Tens.var 1) (Tens.var 2) rfl

/-- C4: with `add_encoder` and `add_decoder` both false, `set_input_tensor`
raises for every argument; in the `Except` model an error carries no new
state, matching the source in which nothing is mutated before the raise. -/
theorem set_input_tensor_no_stage_spec
    (pre post share : Bool) (pe : PosEmbKind) (ehs ebi dbi : Tens)
    (arg : STArg) :
    (T5Model.mk pre post false false share pe ehs ebi dbi).set_input_tensor
        arg
      = Except.error "Stage must have at least either encoder or decoder" := by
  unfold T5Model.set_input_tensor
  simp

/-- C6: `torch.permute(·, (0, 2, 3, 1))` moves the heads dimension last;
it and `torch.permute(·, (0, 3, 1, 2))` are mutually inverse, so with a
tensor-parallel group of size 1 (where the scatter keeps the whole last
dimension) the bias handed to the block equals the originally computed
bias; and in `forward` under `position_embedding_type = 'relative'` the
bias passed to each block is exactly
permute(0,3,1,2) ∘ scatter ∘ permute(0,2,3,1) of the freshly computed
relative-position bias. -/
theorem relative_bias_permute_scatter_spec :
    (∀ t : Tensor4, permute_0312 (permute_0231 t) = t)
    ∧ (∀ t : Tensor4, permute_0231 (permute_0312 t) = t)
    ∧ (∀ t : Tensor4, (permute_0231 t).d0 = t.d0 ∧ (permute_0231 t).d1 = t.d2
        ∧ (permute_0231 t).d2 = t.d3 ∧ (permute_0231 t).d3 = t.d1)
    ∧ (∀ t : Tensor4,
        permute_0312 (scatter_to_tensor_model_parallel_region 1 0
          (permute_0231 t)) = t)
    ∧ (∀ (pre post share : Bool) (ehsSt ebi dbi eIds dIds eM dM edM lab : Tens),
        ∃ ec dc,
          ((T5Model.mk pre post true true share PosEmbKind.relative ehsSt ebi
                dbi).forward
              (ForwardArgs.mk eIds dIds eM dM edM lab Tens.noneT
                false)).encCall = some ec
          ∧ ((T5Model.mk pre post true true share PosEmbKind.relative ehsSt
                ebi dbi).forward
              (ForwardArgs.mk eIds dIds eM dM edM lab Tens.noneT
                false)).decCall = some dc
          ∧ ec.attention_bias = Tens.permute0312T (Tens.scatterTPT
              (Tens.permute0231T (Tens.relBiasT true ec.hidden_states)))
          ∧ dc.attention_bias = Tens.permute0312T (Tens.scatterTPT
              (Tens.permute0231T (Tens.relBiasT false dc.hidden_states)))) := by
  refine ⟨fun t => rfl, fun t => rfl, fun t => ⟨rfl, rfl, rfl, rfl⟩,
    fun t => ?_, ?_⟩
  · cases t with
    | mk d0 d1 d2 d3 f =>
      simp only [permute_0231, scatter_to_tensor_model_parallel_region,
        permute_0312, Nat.div_one, Nat.zero_mul, Nat.zero_add,
        Tensor4.mk.injEq]
  · intro pre post share ehsSt ebi dbi eIds dIds eM dM edM lab
    cases pre <;> cases post <;> by_cases hl : lab = Tens.noneT <;>
      simp [T5Model.forward, hl]

/-- C5: on a stage running both blocks, the rotary embedding is computed and
passed to each block iff `position_embedding_type = 'rope'`, the relative
attention bias iff `'relative'`, and under `'learned_absolute'` both the
`rotary_pos_emb` and `attention_bias` arguments of both blocks are `None`. -/
theorem position_embedding_dispatch_spec
    (pre post share : Bool) (pe : PosEmbKind)
    (ehsSt ebi dbi eIds dIds eM dM edM lab : Tens) :
    ∃ ec dc,
      ((T5Model.mk pre post true true share pe ehsSt ebi dbi).forward
          (ForwardArgs.mk eIds dIds eM dM edM lab Tens.noneT false)).encCall
        = some ec
      ∧ ((T5Model.mk pre post true true share pe ehsSt ebi dbi).forward
          (ForwardArgs.mk eIds dIds eM dM edM lab Tens.noneT false)).decCall
        = some dc
      ∧ ec.rotary_pos_emb = (if pe = PosEmbKind.rope
          then Tens.rotaryT false ec.hidden_states else Tens.noneT)
      ∧ ec.attention_bias = (if pe = PosEmbKind.relative
          then Tens.permute0312T (Tens.scatterTPT (Tens.permute0231T
            (Tens.relBiasT true ec.hidden_states))) else Tens.noneT)
      ∧ dc.rotary_pos_emb = (if pe = PosEmbKind.rope
          then Tens.rotaryT true dc.hidden_states else Tens.noneT)
      ∧ dc.attention_bias = (if pe = PosEmbKind.relative
          then Tens.permute0312T (Tens.scatterTPT (Tens.permute0231T
            (Tens.relBiasT false dc.hidden_states))) else Tens.noneT)
      ∧ ((ec.rotary_pos_emb ≠ Tens.noneT) ↔ pe = PosEmbKind.rope)
      ∧ ((ec.attention_bias ≠ Tens.noneT) ↔ pe = PosEmbKind.relative)
      ∧ ((dc.rotary_pos_emb ≠ Tens.noneT) ↔ pe = PosEmbKind.rope)
      ∧ ((dc.attention_bias ≠ Tens.noneT) ↔ pe = PosEmbKind.relative)
      ∧ (pe = PosEmbKind.learned_absolute →
          ec.rotary_pos_emb = Tens.noneT ∧ ec.attention_bias = Tens.noneT
          ∧ dc.rotary_pos_emb = Tens.noneT
          ∧ dc.attention_bias = Tens.noneT) := by
  cases pe <;> cases pre <;> cases post <;> by_cases hl : lab = Tens.noneT <;>
    simp [T5Model.forward, hl]

/-- C5 witness: under `'learned_absolute'` the encoder block concretely gets
no rotary embedding and no attention bias. -/
theorem position_embedding_dispatch_spec_witness :
    ∃ ec, ((T5Model.mk true true true true false
        PosEmbKind.learned_absolute Tens.noneT Tens.noneT Tens.noneT).forward
      (ForwardArgs.mk (Tens.var 1) (Tens.var 2) (Tens.var 3) (Tens.var 4)
        (Tens.var 5) Tens.noneT Tens.noneT false)).encCall = some ec
      ∧ ec.rotary_pos_emb = Tens.noneT ∧ ec.attention_bias = Tens.noneT := by
  obtain ⟨ec, dc, h1, h2, h3, h4, h5, h6, h7⟩ :=
    position_embedding_dispatch_spec true true false
      PosEmbKind.learned_absolute Tens.noneT Tens.noneT Tens.noneT
      (Tens.var 1) (Tens.var 2) (Tens.var 3) (Tens.var 4) (Tens.var 5)
      Tens.noneT
  exact ⟨ec, h1, by simpa using h3, by simpa using h4⟩

/-- C7: `shared_embedding_or_output_weight` returns the word-embedding weight
when `pre_process`, otherwise the LM head's output-layer weight when
`post_process`, otherwise `None`; and when `post_process` and
`share_embeddings_and_output_weights` hold, `forward` passes exactly this
weight to the output head. -/
theorem shared_embedding_weight_spec :
    (∀ self : T5Model,
        (self.pre_process = true →
          self.shared_embedding_or_output_weight = Tens.wordEmbWeightT)
        ∧ (self.pre_process = false → self.post_process = true →
          self.shared_embedding_or_output_weight = Tens.outputLayerWeightT)
        ∧ (self.pre_process = false → self.post_process = false →
          self.shared_embedding_or_output_weight = Tens.noneT))
    ∧ (∀ (pre ae : Bool) (pe : PosEmbKind)
        (ehsSt ebi dbi eIds dIds eM dM edM lab aehs : Tens),
        ∃ hc,
          ((T5Model.mk pre true ae true true pe ehsSt ebi dbi).forward
              (ForwardArgs.mk eIds dIds eM dM edM lab aehs false)).headCall
            = some hc
          ∧ hc.word_embeddings_weight
            = (T5Model.mk pre true ae true true pe ehsSt ebi
                dbi).shared_embedding_or_output_weight) := by
  constructor
  · intro self
    obtain ⟨pre, post, ae, ad, share, pe, ehsSt, ebi, dbi⟩ := self
    cases pre <;> cases post <;>
      simp [T5Model.shared_embedding_or_output_weight]
  · intro pre ae pe ehsSt ebi dbi eIds dIds eM dM edM lab aehs
    cases pre <;> cases ae <;> cases pe <;>
      by_cases ha : aehs = Tens.noneT <;> by_cases hl : lab = Tens.noneT <;>
      simp [T5Model.forward, T5Model.shared_embedding_or_output_weight, ha,
        hl]

/-- C7 witness: on a `pre_process` stage the shared weight is concretely the
word-embedding weight. -/
theorem shared_embedding_weight_spec_witness :
    (T5Model.mk true true true true true PosEmbKind.rope Tens.noneT
        Tens.noneT Tens.noneT).shared_embedding_or_output_weight
      = Tens.wordEmbWeightT :=
  (shared_embedding_weight_spec.1
    (T5Model.mk true true true true true PosEmbKind.rope Tens.noneT
      Tens.noneT Tens.noneT)).1 rfl

/-- C8: a call that reaches the post-processing section returns the logits
transposed and made contiguous when `lm_labels` is `None`, the language-model
loss of `lm_labels` against the logits otherwise, and with `post_process`
false it returns the decoder's hidden states. -/
theorem post_process_output_spec
    (pre post ae share : Bool) (pe : PosEmbKind)
    (ehsSt ebi dbi eIds dIds eM dM edM lab aehs : Tens) :
    ∃ dc,
      ((T5Model.mk pre post ae true share pe ehsSt ebi dbi).forward
          (ForwardArgs.mk eIds dIds eM dM edM lab aehs false)).decCall
        = some dc
      ∧ (post = true →
          ∃ hc,
            ((T5Model.mk pre post ae true share pe ehsSt ebi dbi).forward
                (ForwardArgs.mk eIds dIds eM dM edM lab aehs false)).headCall
              = some hc
            ∧ hc.hidden_states = Tens.decoderT dc.hidden_states
                dc.attention_mask dc.context dc.context_mask
                dc.rotary_pos_emb dc.attention_bias
            ∧ ((T5Model.mk pre post ae true share pe ehsSt ebi dbi).forward
                (ForwardArgs.mk eIds dIds eM dM edM lab aehs false)).result
              = (if lab = Tens.noneT
                  then Tens.transposeContigT (Tens.lmHeadT hc.hidden_states
                    hc.word_embeddings_weight)
                  else Tens.lmLossT lab (Tens.lmHeadT hc.hidden_states
                    hc.word_embeddings_weight)))
      ∧ (post = false →
          ((T5Model.mk pre post ae true share pe ehsSt ebi dbi).forward
              (ForwardArgs.mk eIds dIds eM dM edM lab aehs false)).headCall
            = none
          ∧ ((T5Model.mk pre post ae true share pe ehsSt ebi dbi).forward
              (ForwardArgs.mk eIds dIds eM dM edM lab aehs false)).result
            = Tens.decoderT dc.hidden_states dc.attention_mask dc.context
                dc.context_mask dc.rotary_pos_emb dc.attention_bias) := by
  cases pre <;> cases post <;> cases ae <;> cases share <;> cases pe <;>
    by_cases ha : aehs = Tens.noneT <;> by_cases hl : lab = Tens.noneT <;>
    simp [T5Model.forward, ha, hl]

/-- C8 witness: with labels given, the result is concretely the loss of the
labels against the LM-head logits. -/
theorem post_process_output_spec_witness :
    ∃ r,
      ((T5Model.mk true true true true false PosEmbKind.rope Tens.noneT
          Tens.noneT Tens.noneT).forward
        (ForwardArgs.mk (Tens.var 1) (Tens.var 2) (Tens.var 3) (Tens.var 4)
          (Tens.var 5) (Tens.var 6) Tens.noneT false)).result
        = Tens.lmLossT (Tens.var 6) r := by
  obtain ⟨dc, h1, h2, h3⟩ :=
    post_process_output_spec true true true false PosEmbKind.rope Tens.noneT
      Tens.noneT Tens.noneT (Tens.var 1) (Tens.var 2) (Tens.var 3)
      (Tens.var 4) (Tens.var 5) (Tens.var 6) Tens.noneT
  obtain ⟨hc, h4, h5, h6⟩ := h2 rfl
  refine ⟨Tens.lmHeadT hc.hidden_states hc.word_embeddings_weight, ?_⟩
  simpa using h6

/-- C9: with `output_encoder_hidden_only` true or `add_decoder` false,
`forward` returns the encoder hidden states (freshly computed when
`add_encoder` holds and none were passed in; otherwise the stored or the
passed-in ones) and invokes neither the decoder block nor the LM head nor
the loss computation. -/
theorem encoder_only_return_spec
    (pre post ae ad share oeho : Bool) (pe : PosEmbKind)
    (ehsSt ebi dbi eIds dIds eM dM edM lab aehs : Tens)
    (h : ad = false ∨ oeho = true) :
    ((T5Model.mk pre post ae ad share pe ehsSt ebi dbi).forward
        (ForwardArgs.mk eIds dIds eM dM edM lab aehs oeho)).decCall = none
    ∧ ((T5Model.mk pre post ae ad share pe ehsSt ebi dbi).forward
        (ForwardArgs.mk eIds dIds eM dM edM lab aehs oeho)).headCall = none
    ∧ Event.decBlock ∉ ((T5Model.mk pre post ae ad share pe ehsSt ebi
        dbi).forward (ForwardArgs.mk eIds dIds eM dM edM lab aehs
        oeho)).trace
    ∧ Event.lmOutputHead ∉ ((T5Model.mk pre post ae ad share pe ehsSt ebi
        dbi).forward (ForwardArgs.mk eIds dIds eM dM edM lab aehs
        oeho)).trace
    ∧ Event.lmLossCompute ∉ ((T5Model.mk pre post ae ad share pe ehsSt ebi
        dbi).forward (ForwardArgs.mk eIds dIds eM dM edM lab aehs
        oeho)).trace
    ∧ (aehs = Tens.noneT → ae = true →
        ∃ ec,
          ((T5Model.mk pre post ae ad share pe ehsSt ebi dbi).forward
              (ForwardArgs.mk eIds dIds eM dM edM lab aehs oeho)).encCall
            = some ec
          ∧ ((T5Model.mk pre post ae ad share pe ehsSt ebi dbi).forward
              (ForwardArgs.mk eIds dIds eM dM edM lab aehs oeho)).result
            = Tens.encoderT ec.hidden_states ec.attention_mask
                ec.rotary_pos_emb ec.attention_bias)
    ∧ (aehs = Tens.noneT → ae = false →
        ((T5Model.mk pre post ae ad share pe ehsSt ebi dbi).forward
            (ForwardArgs.mk eIds dIds eM dM edM lab aehs oeho)).result
          = ehsSt)
    ∧ (aehs ≠ Tens.noneT →
        ((T5Model.mk pre post ae ad share pe ehsSt ebi dbi).forward
            (ForwardArgs.mk eIds dIds eM dM edM lab aehs oeho)).result
          = aehs) := by
  rcases h with h | h
  · subst h
    cases pre <;> cases ae <;> cases oeho <;> cases pe <;>
      by_cases ha : aehs = Tens.noneT <;> simp [T5Model.forward, ha]
  · subst h
    cases pre <;> cases ae <;> cases ad <;> cases pe <;>
      by_cases ha : aehs = Tens.noneT <;> simp [T5Model.forward, ha]

/-- C9 witness: on a decoder-less stage with nothing passed in, the concrete
result is the stored encoder hidden state. -/
theorem encoder_only_return_spec_witness :
    ((T5Model.mk true true false false false PosEmbKind.rope (Tens.var 9)
        Tens.noneT Tens.noneT).forward
      (ForwardArgs.mk (Tens.var 1) (Tens.var 2) (Tens.var 3) (Tens.var 4)
        (Tens.var 5) Tens.noneT Tens.noneT false)).result = Tens.var 9 :=
  (encoder_only_return_spec true true false false false false
      PosEmbKind.rope (Tens.var 9) Tens.noneT Tens.noneT (Tens.var 1)
      (Tens.var 2) (Tens.var 3) (Tens.var 4) (Tens.var 5) Tens.noneT
      Tens.noneT (Or.inl rfl)).2.2.2.2.2.2.1 rfl rfl

/-- C1: on a stage with `pre_process`, `add_encoder`, `add_decoder` and
`post_process` all true and `encoder_hidden_states = None`, `forward`
computes, in order: encoder token embedding, the positional bias of the
configured type, the encoder block, decoder token embedding, the decoder
positional bias, the decoder block with the encoder output as
cross-attention context under the encoder-decoder mask, and the LM output
head on the decoder's hidden states. -/
theorem full_stage_forward_order_spec
    (share : Bool) (pe : PosEmbKind)
    (ehsSt ebi dbi eIds dIds eM dM edM lab : Tens) :
    let encIn := Tens.embeddingT eIds (Tens.t5PositionIdsT eIds)
    let encRope := if pe = PosEmbKind.rope then Tens.rotaryT false encIn
      else Tens.noneT
    let encBias := if pe = PosEmbKind.relative then
        Tens.permute0312T (Tens.scatterTPT (Tens.permute0231T
          (Tens.relBiasT true encIn)))
      else Tens.noneT
    let encOut := Tens.encoderT encIn eM encRope encBias
    let decIn := Tens.embeddingT dIds (Tens.t5PositionIdsT dIds)
    let decRope := if pe = PosEmbKind.rope then Tens.rotaryT true decIn
      else Tens.noneT
    let decBias := if pe = PosEmbKind.relative then
        Tens.permute0312T (Tens.scatterTPT (Tens.permute0231T
          (Tens.relBiasT false decIn)))
      else Tens.noneT
    let decOut := Tens.decoderT decIn dM encOut edM decRope decBias
    let w := if share then Tens.wordEmbWeightT else Tens.noneT
    (T5Model.mk true true true true share pe ehsSt ebi dbi).forward
        (ForwardArgs.mk eIds dIds eM dM edM lab Tens.noneT false)
      = { trace := [Event.encEmbedding]
            ++ (if pe = PosEmbKind.rope then [Event.encRotaryPosEmb] else [])
            ++ (if pe = PosEmbKind.relative then [Event.encRelativePosBias]
                else [])
            ++ [Event.encBlock, Event.decEmbedding]
            ++ (if pe = PosEmbKind.rope then [Event.decRotaryPosEmb] else [])
            ++ (if pe = PosEmbKind.relative then [Event.decRelativePosBias]
                else [])
            ++ [Event.decBlock, Event.lmOutputHead]
            ++ (if lab = Tens.noneT then [] else [Event.lmLossCompute]),
          encCall := some ⟨encIn, eM, encRope, encBias⟩,
          decCall := some ⟨decIn, dM, encOut, edM, decRope, decBias⟩,
          headCall := some ⟨decOut, w⟩,
          result := if lab = Tens.noneT
            then Tens.transposeContigT (Tens.lmHeadT decOut w)
            else Tens.lmLossT lab (Tens.lmHeadT decOut w) } := by
  cases pe <;> cases share <;> by_cases hl : lab = Tens.noneT <;>
    simp [T5Model.forward, T5Model.shared_embedding_or_output_weight, hl]
